import Mathlib

/-!
Verification development for the FridgeManager application core: the record
lifecycle operations (add / update / delete for foods and recipes), the derived
view calculator (days-until-expiry, expiring-soon, expired, available recipes),
the food form submission, and the debounced fingerprint-guarded write-back.

The embedding follows the source closely: JavaScript numbers that carry
quantities and identities become rationals (`ℚ`), millisecond timestamps become
integers (`ℤ`), date-string parsing (`new Date(s).getTime()`) is an explicit
`parse : String → ℤ` parameter, and the fingerprint function of the
synchronization engine is an abstract `hash` parameter.
-/

/-- The boolean substring test of JavaScript `hay.includes(needle)`: the
needle's character sequence occurs contiguously inside the hay's. -/
def strIncludes (hay needle : String) : Bool :=
  decide (needle.data <:+: hay.data)

/-- A food record, as in `interface Food`. `expiryDate` stays the raw date
string stored on the record; turning it into a timestamp is the job of the
`parse` parameter of the expiry views. -/
structure Food where
  id : ℚ
  name : String
  category : String
  quantity : ℚ
  unit : String
  expiryDate : String
  notes : String
  dateAdded : String
deriving DecidableEq

/-- An ingredient embedded in a recipe, as in `interface Ingredient`. -/
structure Ingredient where
  name : String
  quantity : ℚ
  unit : String
deriving DecidableEq

/-- A recipe record, as in `interface Recipe`. -/
structure Recipe where
  id : ℚ
  name : String
  description : String
  instructions : String
  cookingTime : String
  servings : ℚ
  ingredients : List Ingredient
  dateCreated : String
deriving DecidableEq

/-- The divisor `1000 * 60 * 60 * 24` of `getDaysUntilExpiry`: milliseconds in
one day. -/
def msPerDay : ℤ := 1000 * 60 * 60 * 24

/-- `getDaysUntilExpiry` from the source:
`Math.ceil((expiry.getTime() - today.getTime()) / (1000*60*60*24))`.
`parse` models `new Date(s).getTime()` on the stored date string and `todayMs`
models `new Date().getTime()`. -/
def getDaysUntilExpiry (parse : String → ℤ) (todayMs : ℤ) (expiryDate : String) : ℤ :=
  ⌈((parse expiryDate - todayMs : ℤ) : ℚ) / (msPerDay : ℚ)⌉

/-- `getExpiringFoods` from the source: keep the foods whose
`daysUntilExpiry <= days && daysUntilExpiry >= 0`. -/
def getExpiringFoods (parse : String → ℤ) (todayMs : ℤ) (foods : List Food)
    (days : ℤ) : List Food :=
  foods.filter fun food =>
    decide (getDaysUntilExpiry parse todayMs food.expiryDate ≤ days) &&
      decide (getDaysUntilExpiry parse todayMs food.expiryDate ≥ 0)

/-- `getExpiredFoods` from the source: keep the foods whose
`getDaysUntilExpiry(food.expiryDate) < 0`. -/
def getExpiredFoods (parse : String → ℤ) (todayMs : ℤ) (foods : List Food) :
    List Food :=
  foods.filter fun food =>
    decide (getDaysUntilExpiry parse todayMs food.expiryDate < 0)

/-- The per-food test inside `getAvailableRecipes`:
`food.name.toLowerCase().includes(ingredient.name.toLowerCase()) &&
food.quantity >= ingredient.quantity`. -/
def ingredientMatchBool (ingredient : Ingredient) (food : Food) : Bool :=
  strIncludes food.name.toLower ingredient.name.toLower &&
    decide (food.quantity ≥ ingredient.quantity)

/-- `getAvailableRecipes` from the source: keep the recipes for which
`recipe.ingredients.every(ingredient => foods.find(...))` holds, with the
per-food test `ingredientMatchBool`. -/
def getAvailableRecipes (recipes : List Recipe) (foods : List Food) : List Recipe :=
  recipes.filter fun recipe =>
    recipe.ingredients.all fun ingredient =>
      (foods.find? fun food => ingredientMatchBool ingredient food).isSome

/-- The caller-supplied part of a food record, `Omit<Food, 'id' | 'dateAdded'>`. -/
structure FoodInput where
  name : String
  category : String
  quantity : ℚ
  unit : String
  expiryDate : String
  notes : String
deriving DecidableEq

/-- `addFood` from the source: build a new record with
`id: Date.now() + Math.random()` and `dateAdded: new Date().toISOString()` and
append it; `nowMs` and `rand` model the two environment reads, `nowIso` the
timestamp string. -/
def addFood (foods : List Food) (input : FoodInput) (nowMs rand : ℚ)
    (nowIso : String) : List Food :=
  foods ++ [{ id := nowMs + rand, name := input.name, category := input.category,
              quantity := input.quantity, unit := input.unit,
              expiryDate := input.expiryDate, notes := input.notes,
              dateAdded := nowIso }]

/-- The record built by `updateFood`: the input's mutable fields with
`id: editingFood.id` and `dateAdded: editingFood.dateAdded`. -/
def applyFoodUpdate (editing : Food) (input : FoodInput) : Food :=
  { id := editing.id, name := input.name, category := input.category,
    quantity := input.quantity, unit := input.unit,
    expiryDate := input.expiryDate, notes := input.notes,
    dateAdded := editing.dateAdded }

/-- `updateFood` from the source:
`foods.map(food => food.id === updatedFood.id ? updatedFood : food)`. -/
def updateFood (foods : List Food) (editing : Food) (input : FoodInput) :
    List Food :=
  foods.map fun food =>
    if food.id = editing.id then applyFoodUpdate editing input else food

/-- `deleteFood` from the source: `foods.filter(food => food.id !== id)`. -/
def deleteFood (foods : List Food) (targetId : ℚ) : List Food :=
  foods.filter fun food => decide (food.id ≠ targetId)

/-- The caller-supplied part of a recipe record,
`Omit<Recipe, 'id' | 'dateCreated'>`. -/
structure RecipeInput where
  name : String
  description : String
  instructions : String
  cookingTime : String
  servings : ℚ
  ingredients : List Ingredient
deriving DecidableEq

/-- `addRecipe` from the source: build a new record with `id: Date.now()`
(no random component) and append it. -/
def addRecipe (recipes : List Recipe) (input : RecipeInput) (nowMs : ℚ)
    (nowIso : String) : List Recipe :=
  recipes ++ [{ id := nowMs, name := input.name, description := input.description,
                instructions := input.instructions,
                cookingTime := input.cookingTime, servings := input.servings,
                ingredients := input.ingredients, dateCreated := nowIso }]

/-- The record built by `updateRecipe`: the input's mutable fields with
`id: editingRecipe.id` and `dateCreated: editingRecipe.dateCreated`. -/
def applyRecipeUpdate (editing : Recipe) (input : RecipeInput) : Recipe :=
  { id := editing.id, name := input.name, description := input.description,
    instructions := input.instructions, cookingTime := input.cookingTime,
    servings := input.servings, ingredients := input.ingredients,
    dateCreated := editing.dateCreated }

/-- `updateRecipe` from the source:
`recipes.map(recipe => recipe.id === updatedRecipe.id ? updatedRecipe : recipe)`. -/
def updateRecipe (recipes : List Recipe) (editing : Recipe) (input : RecipeInput) :
    List Recipe :=
  recipes.map fun recipe =>
    if recipe.id = editing.id then applyRecipeUpdate editing input else recipe

/-- `deleteRecipe` from the source:
`recipes.filter(recipe => recipe.id !== id)`. -/
def deleteRecipe (recipes : List Recipe) (targetId : ℚ) : List Recipe :=
  recipes.filter fun recipe => decide (recipe.id ≠ targetId)

/-- The quantity field of the food form as seen by `Number(formData.quantity)`:
either NaN (a non-numeric entry, e.g. `parseFloat("")`) or a numeric value. -/
inductive QuantityInput where
  | nan : QuantityInput
  | num : ℚ → QuantityInput
deriving DecidableEq

/-- `Number(formData.quantity) || 1` from `handleSubmit` / `handleAddClick`:
NaN and 0 are the falsy numeric values and become 1; every other number —
negative values included — is kept as is. -/
def coerceQuantity : QuantityInput → ℚ
  | QuantityInput.nan => 1
  | QuantityInput.num v => if v = 0 then 1 else v

/-- The food form's state object. -/
structure FoodFormData where
  name : String
  category : String
  quantity : QuantityInput
  unit : String
  expiryDate : String
  notes : String
deriving DecidableEq

/-- Executable model of JavaScript `String.prototype.trim`: drop leading and
trailing whitespace characters. -/
def strTrim (s : String) : String :=
  String.mk (((s.data.dropWhile Char.isWhitespace).reverse.dropWhile
    Char.isWhitespace).reverse)

/-- `handleSubmit` (and the identical `handleAddClick`) of the food form:
refuse when the trimmed name is empty or the expiry date is empty, otherwise
submit the processed record with `quantity: Number(formData.quantity) || 1`
and `name: formData.name.trim()`. -/
def handleSubmit (fd : FoodFormData) : Option FoodInput :=
  if strTrim fd.name = "" then none
  else if fd.expiryDate = "" then none
  else some { name := strTrim fd.name, category := fd.category,
              quantity := coerceQuantity fd.quantity, unit := fd.unit,
              expiryDate := fd.expiryDate, notes := fd.notes }

/-- Outcome type for the spec's description of update: either the new
collection or a NotFound failure. -/
inductive UpdateOutcome (α : Type) where
  | ok : α → UpdateOutcome α
  | notFound : UpdateOutcome α
deriving DecidableEq

/-- Modelled from the spec: `updateFood(id, input)` "locates the record by
identity; if absent, fails with a NotFound condition; otherwise replaces all
mutable fields with input's values while preserving identity and original
creation timestamp". The code under `src/` has no NotFound path at all; this
spec-side contract exists only to be compared with the code's `updateFood`. -/
def updateFoodSpec (foods : List Food) (targetId : ℚ) (input : FoodInput) :
    UpdateOutcome (List Food) :=
  match foods.find? fun f => decide (f.id = targetId) with
  | none => UpdateOutcome.notFound
  | some editing => UpdateOutcome.ok (updateFood foods editing input)

/-- State of the debounced write-back machinery for one collection:
`pendingFire` is the single `saveTimeoutRef` slot (fire time and the data the
scheduled closure carries), `lastSave` the last persisted fingerprint
(`lastFoodsSave` / `lastRecipesSave`), `saves` the writes handed to the
persistence gateway, in order. -/
structure SyncState (α : Type) where
  pendingFire : Option (ℤ × α)
  lastSave : String
  saves : List α
deriving DecidableEq

/-- `debouncedSave` from the source: `clearTimeout` on the existing slot, then
`setTimeout(..., 500)` — the single slot is overwritten with a timer due 500
time units after the mutation, carrying the mutated data. -/
def debouncedSave {α : Type} (s : SyncState α) (t : ℤ) (data : α) : SyncState α :=
  { s with pendingFire := some (t + 500, data) }

/-- The body of the armed timeout: compare the carried data's fingerprint with
the last persisted one; persist and update the fingerprint only when they
differ; in either case the timer is consumed. -/
def fireTimer {α : Type} (hash : α → String) (s : SyncState α) : SyncState α :=
  match s.pendingFire with
  | none => s
  | some (_, data) =>
      if hash data = s.lastSave then { s with pendingFire := none }
      else { pendingFire := none, lastSave := hash data,
             saves := s.saves ++ [data] }

/-- One debounce step folded over a burst of mutations. -/
def debounceStep {α : Type} (s : SyncState α) (td : ℤ × α) : SyncState α :=
  debouncedSave s td.1 td.2

/-- A burst of mutations all landing inside the quiescence window — so every
timer but the last is cleared before it can fire — followed by the one
surviving timer elapsing. -/
def runBurst {α : Type} (hash : α → String) (s : SyncState α)
    (ms : List (ℤ × α)) : SyncState α :=
  fireTimer hash (ms.foldl debounceStep s)

/-- Number of write-back timers pending in a state. -/
def pendingCount {α : Type} (s : SyncState α) : ℕ :=
  s.pendingFire.toList.length

/-- Sample food: two days' worth of milk under the trivial parse function
`fun _ => 0` at reference time 0 it expires today. -/
def sampleMilk : Food :=
  { id := 7, name := "Leche Entera", category := "lácteos", quantity := 2,
    unit := "l", expiryDate := "2025-01-03", notes := "", dateAdded := "d0" }

/-- Sample food input used to exercise update operations. -/
def sampleInput : FoodInput :=
  { name := "Leche Desnatada", category := "lácteos", quantity := 1,
    unit := "l", expiryDate := "2025-02-01", notes := "nueva" }

/-- Sample recipe with no ingredients. -/
def sampleEmptyRecipe : Recipe :=
  { id := 1, name := "agua", description := "", instructions := "servir",
    cookingTime := "", servings := 1, ingredients := [], dateCreated := "d0" }

/-- Sample recipe input used to exercise recipe operations. -/
def sampleRecipeInput : RecipeInput :=
  { name := "sopa", description := "", instructions := "hervir",
    cookingTime := "10 min", servings := 2,
    ingredients := [{ name := "agua", quantity := 1, unit := "l" }] }

/-- A food whose identity (99) is absent from `[sampleMilk]`, playing the role
of an update request for a missing record. -/
def ghostFood : Food :=
  { id := 99, name := "Fantasma", category := "otros", quantity := 1,
    unit := "unidad", expiryDate := "2025-01-01", notes := "", dateAdded := "d9" }

/-- Two distinct food records sharing identity 1, a duplicate-identity state. -/
def dupFoodA : Food :=
  { id := 1, name := "a", category := "otros", quantity := 1, unit := "unidad",
    expiryDate := "2025-01-01", notes := "", dateAdded := "d1" }

/-- Second record of the duplicate-identity pair. -/
def dupFoodB : Food :=
  { id := 1, name := "b", category := "otros", quantity := 1, unit := "unidad",
    expiryDate := "2025-01-01", notes := "", dateAdded := "d2" }

/-- A recipe whose identity equals the millisecond timestamp 1000 at which a
second recipe is created. -/
def clashRecipe : Recipe :=
  { id := 1000, name := "tortilla", description := "", instructions := "batir",
    cookingTime := "", servings := 1, ingredients := [], dateCreated := "d0" }

/-- A form state carrying the negative quantity -5. -/
def negativeQuantityForm : FoodFormData :=
  { name := "leche", category := "otros", quantity := QuantityInput.num (-5),
    unit := "unidad", expiryDate := "2025-01-01", notes := "" }

/-- The record `handleSubmit` produces from `negativeQuantityForm`. -/
def negativeQuantityResult : FoodInput :=
  { name := "leche", category := "otros", quantity := -5, unit := "unidad",
    expiryDate := "2025-01-01", notes := "" }

/-- A form state whose quantity field failed to parse (NaN). -/
def nanQuantityForm : FoodFormData :=
  { name := "pan", category := "cereales", quantity := QuantityInput.nan,
    unit := "unidad", expiryDate := "2025-01-02", notes := "" }

/-- The record `handleSubmit` produces from `nanQuantityForm`. -/
def nanQuantityResult : FoodInput :=
  { name := "pan", category := "cereales", quantity := 1, unit := "unidad",
    expiryDate := "2025-01-02", notes := "" }

/-- C1: membership in `getAvailableRecipes` holds exactly for the recipes of
the input list such that every ingredient has at least one food whose
lowercased name contains the ingredient's lowercased name as a contiguous
substring and whose quantity is at least the required one; the condition is an
independent existential per ingredient, so one food record may serve several
ingredients with nothing reserved or decremented. -/
theorem getAvailableRecipes_mem_iff (recipes : List Recipe) (foods : List Food)
    (r : Recipe) :
    r ∈ getAvailableRecipes recipes foods ↔
      r ∈ recipes ∧ ∀ ingredient ∈ r.ingredients, ∃ food ∈ foods,
        ingredient.name.toLower.data <:+: food.name.toLower.data ∧
        ingredient.quantity ≤ food.quantity := by
  simp only [getAvailableRecipes, List.mem_filter, List.all_eq_true,
    List.find?_isSome, ingredientMatchBool, strIncludes, Bool.and_eq_true,
    decide_eq_true_eq, ge_iff_le]

/-- C10: a recipe with no ingredients is always available, whatever the food
list — the universally quantified ingredient condition is vacuous. -/
theorem getAvailableRecipes_empty_ingredients (recipes : List Recipe)
    (foods : List Food) (r : Recipe) (hr : r ∈ recipes)
    (he : r.ingredients = []) :
    r ∈ getAvailableRecipes recipes foods := by
  simp [getAvailableRecipes, List.mem_filter, hr, he]

/-- Concrete instance of C10: the ingredient-free sample recipe is available
even with an empty fridge. -/
theorem getAvailableRecipes_empty_ingredients_witness :
    sampleEmptyRecipe ∈ getAvailableRecipes [sampleEmptyRecipe] [] :=
  getAvailableRecipes_empty_ingredients [sampleEmptyRecipe] [] sampleEmptyRecipe
    (by simp) rfl

/-- C2: `getExpiringFoods` keeps exactly the foods whose days-until-expiry lies
in `[0, days]`, `getExpiredFoods` exactly those with a strictly negative value,
and no food belongs to both results. -/
theorem expiring_expired_characterization (parse : String → ℤ) (todayMs days : ℤ)
    (foods : List Food) (f : Food) :
    (f ∈ getExpiringFoods parse todayMs foods days ↔
      f ∈ foods ∧ 0 ≤ getDaysUntilExpiry parse todayMs f.expiryDate ∧
        getDaysUntilExpiry parse todayMs f.expiryDate ≤ days) ∧
    (f ∈ getExpiredFoods parse todayMs foods ↔
      f ∈ foods ∧ getDaysUntilExpiry parse todayMs f.expiryDate < 0) ∧
    ¬ (f ∈ getExpiringFoods parse todayMs foods days ∧
        f ∈ getExpiredFoods parse todayMs foods) := by
  simp only [getExpiringFoods, getExpiredFoods, List.mem_filter,
    Bool.and_eq_true, decide_eq_true_eq, ge_iff_le]
  refine ⟨by tauto, by tauto, ?_⟩
  rintro ⟨⟨-, -, h0⟩, -, hneg⟩
  omega

/-- Concrete instance of C2: under the parse function sending every date to
time 0 and reference time 0, the sample milk (zero days until expiry) is
listed as expiring within a 3-day window and is not listed as expired. -/
theorem expiring_expired_characterization_witness :
    sampleMilk ∈ getExpiringFoods (fun _ => 0) 0 [sampleMilk] 3 ∧
    sampleMilk ∉ getExpiredFoods (fun _ => 0) 0 [sampleMilk] := by
  have h := expiring_expired_characterization (fun _ => 0) 0 3 [sampleMilk] sampleMilk
  refine ⟨h.1.mpr ⟨by simp, ?_, ?_⟩, fun hm => ?_⟩
  · simp [getDaysUntilExpiry]
  · simp [getDaysUntilExpiry]
  · have := h.2.1.mp hm
    simp [getDaysUntilExpiry] at this

/-- C8: `getDaysUntilExpiry` is the integer ceiling of the day difference — it
is the unique integer `d` with `msPerDay * (d - 1) < parse e - todayMs ≤
msPerDay * d` — and advancing the reference time by one day decreases it by
exactly one, hence strictly. -/
theorem getDaysUntilExpiry_ceil_and_decreasing (parse : String → ℤ)
    (todayMs : ℤ) (e : String) :
    (msPerDay * (getDaysUntilExpiry parse todayMs e - 1) < parse e - todayMs ∧
      parse e - todayMs ≤ msPerDay * getDaysUntilExpiry parse todayMs e) ∧
    getDaysUntilExpiry parse (todayMs + msPerDay) e =
      getDaysUntilExpiry parse todayMs e - 1 ∧
    getDaysUntilExpiry parse (todayMs + msPerDay) e <
      getDaysUntilExpiry parse todayMs e := by
  have hpos : (0 : ℚ) < (msPerDay : ℚ) := by norm_num [msPerDay]
  have hshift : getDaysUntilExpiry parse (todayMs + msPerDay) e =
      getDaysUntilExpiry parse todayMs e - 1 := by
    unfold getDaysUntilExpiry
    have hq : ((parse e - (todayMs + msPerDay) : ℤ) : ℚ) / (msPerDay : ℚ) =
        ((parse e - todayMs : ℤ) : ℚ) / (msPerDay : ℚ) - 1 := by
      field_simp
      ring
    rw [hq, Int.ceil_sub_one]
  refine ⟨⟨?_, ?_⟩, hshift, by omega⟩
  · have h1 : ((getDaysUntilExpiry parse todayMs e : ℤ) : ℚ) <
        ((parse e - todayMs : ℤ) : ℚ) / (msPerDay : ℚ) + 1 :=
      Int.ceil_lt_add_one _
    have h2 : ((getDaysUntilExpiry parse todayMs e : ℤ) : ℚ) - 1 <
        ((parse e - todayMs : ℤ) : ℚ) / (msPerDay : ℚ) := by linarith
    have h3 := (lt_div_iff₀ hpos).mp h2
    have h4 : (msPerDay : ℚ) * ((getDaysUntilExpiry parse todayMs e : ℚ) - 1) <
        ((parse e - todayMs : ℤ) : ℚ) := by linarith [h3]
    exact_mod_cast h4
  · have h1 : ((parse e - todayMs : ℤ) : ℚ) / (msPerDay : ℚ) ≤
        ((getDaysUntilExpiry parse todayMs e : ℤ) : ℚ) :=
      Int.le_ceil _
    have h2 := (div_le_iff₀ hpos).mp h1
    have h3 : ((parse e - todayMs : ℤ) : ℚ) ≤
        (msPerDay : ℚ) * ((getDaysUntilExpiry parse todayMs e : ℤ) : ℚ) := by
      linarith [h2]
    exact_mod_cast h3

/-- C3 counterexample: the form with quantity -5 — a non-positive numeric
input — submits successfully, and the produced record keeps quantity -5: the
`|| 1` coercion fires only on NaN and 0, so the quantity is neither coerced to
1 nor positive. -/
theorem handleSubmit_negative_passes_through :
    handleSubmit negativeQuantityForm = some negativeQuantityResult ∧
    (-5 : ℚ) ≤ 0 ∧ negativeQuantityResult.quantity ≠ 1 ∧
    ¬ (0 < negativeQuantityResult.quantity) := by
  exact ⟨by decide, by norm_num, by decide, by decide⟩

/-- C3 (amended): a NaN or zero quantity is coerced to 1 by the form submit;
any other numeric value — negative values included — is passed through
unchanged, so the produced record's quantity is positive whenever the numeric
input is not negative. -/
theorem handleSubmit_quantity_coercion (fd : FoodFormData) (r : FoodInput)
    (h : handleSubmit fd = some r) :
    (fd.quantity = QuantityInput.nan → r.quantity = 1) ∧
    (fd.quantity = QuantityInput.num 0 → r.quantity = 1) ∧
    (∀ v : ℚ, fd.quantity = QuantityInput.num v → v ≠ 0 → r.quantity = v) ∧
    (∀ v : ℚ, fd.quantity = QuantityInput.num v → 0 ≤ v → 0 < r.quantity) := by
  unfold handleSubmit at h
  by_cases h1 : strTrim fd.name = "" <;> simp [h1] at h
  by_cases h2 : fd.expiryDate = "" <;> simp [h2] at h
  subst h
  refine ⟨fun hq => ?_, fun hq => ?_, fun v hq hv => ?_, fun v hq hv => ?_⟩
  · simp [coerceQuantity, hq]
  · simp [coerceQuantity, hq]
  · simp [coerceQuantity, hq, hv]
  · rcases eq_or_ne v 0 with h0 | h0
    · simp [coerceQuantity, hq, h0]
    · simp only [coerceQuantity, hq, if_neg h0]
      exact lt_of_le_of_ne hv (Ne.symm h0)

/-- Concrete instance of the amended C3: the NaN form submits with quantity
coerced to 1. -/
theorem handleSubmit_quantity_coercion_witness :
    nanQuantityResult.quantity = 1 :=
  (handleSubmit_quantity_coercion nanQuantityForm nanQuantityResult (by decide)).1 rfl

/-- Mapping a guarded replacement over a decomposed list: elements failing the
guard on both sides stay, the distinguished element is replaced. -/
theorem map_ite_append {α : Type} (P : α → Prop) [DecidablePred P] (g : α → α)
    (l₁ l₂ : List α) (a : α) (h₁ : ∀ x ∈ l₁, ¬ P x) (h₂ : ∀ x ∈ l₂, ¬ P x)
    (ha : P a) :
    (l₁ ++ a :: l₂).map (fun x => if P x then g x else x) = l₁ ++ g a :: l₂ := by
  rw [List.map_append, List.map_cons, if_pos ha]
  have e₁ : ∀ x ∈ l₁, (fun x => if P x then g x else x) x = id x :=
    fun x hx => if_neg (h₁ x hx)
  have e₂ : ∀ x ∈ l₂, (fun x => if P x then g x else x) x = id x :=
    fun x hx => if_neg (h₂ x hx)
  rw [List.map_congr_left e₁, List.map_congr_left e₂, List.map_id,
    List.map_id]

/-- A keyed replacement map over a list with pairwise distinct keys containing
`a` splits the list around `a` and replaces exactly that occurrence. -/
theorem update_split_generic {α : Type} (key : α → ℚ) (g : α → α) (l : List α)
    (a : α) (hmem : a ∈ l) (hnodup : (l.map key).Nodup) :
    ∃ l₁ l₂, l = l₁ ++ a :: l₂ ∧
      l.map (fun x => if key x = key a then g x else x) = l₁ ++ g a :: l₂ := by
  obtain ⟨l₁, l₂, rfl⟩ := List.append_of_mem hmem
  have hn : key a ∉ l₁.map key ++ l₂.map key := by
    have h := hnodup
    simp only [List.map_append, List.map_cons] at h
    rw [List.nodup_middle] at h
    exact (List.nodup_cons.mp h).1
  refine ⟨l₁, l₂, rfl, ?_⟩
  refine map_ite_append (fun x => key x = key a) g l₁ l₂ a ?_ ?_ rfl
  · intro x hx he
    exact hn (List.mem_append_left _ (he ▸ List.mem_map_of_mem key hx))
  · intro x hx he
    exact hn (List.mem_append_right _ (he ▸ List.mem_map_of_mem key hx))

/-- C4: with the edited record present and identities unique in the
collection, the update replaces exactly that record in place — the collection
splits as `l₁ ++ old :: l₂` before and `l₁ ++ new :: l₂` after, so position
and every other record are untouched — and the new record keeps the old
identity and creation timestamp while taking every mutable field from the
input; likewise for recipes. -/
theorem update_preserves_identity_and_frame
    (foods : List Food) (editingF : Food) (inF : FoodInput)
    (recipes : List Recipe) (editingR : Recipe) (inR : RecipeInput)
    (hmemF : editingF ∈ foods) (hnodupF : (foods.map Food.id).Nodup)
    (hmemR : editingR ∈ recipes) (hnodupR : (recipes.map Recipe.id).Nodup) :
    ((applyFoodUpdate editingF inF).id = editingF.id ∧
     (applyFoodUpdate editingF inF).dateAdded = editingF.dateAdded ∧
     (applyFoodUpdate editingF inF).name = inF.name ∧
     (applyFoodUpdate editingF inF).category = inF.category ∧
     (applyFoodUpdate editingF inF).quantity = inF.quantity ∧
     (applyFoodUpdate editingF inF).unit = inF.unit ∧
     (applyFoodUpdate editingF inF).expiryDate = inF.expiryDate ∧
     (applyFoodUpdate editingF inF).notes = inF.notes ∧
     ∃ l₁ l₂, foods = l₁ ++ editingF :: l₂ ∧
       updateFood foods editingF inF =
         l₁ ++ applyFoodUpdate editingF inF :: l₂) ∧
    ((applyRecipeUpdate editingR inR).id = editingR.id ∧
     (applyRecipeUpdate editingR inR).dateCreated = editingR.dateCreated ∧
     (applyRecipeUpdate editingR inR).name = inR.name ∧
     (applyRecipeUpdate editingR inR).description = inR.description ∧
     (applyRecipeUpdate editingR inR).instructions = inR.instructions ∧
     (applyRecipeUpdate editingR inR).cookingTime = inR.cookingTime ∧
     (applyRecipeUpdate editingR inR).servings = inR.servings ∧
     (applyRecipeUpdate editingR inR).ingredients = inR.ingredients ∧
     ∃ l₁ l₂, recipes = l₁ ++ editingR :: l₂ ∧
       updateRecipe recipes editingR inR =
         l₁ ++ applyRecipeUpdate editingR inR :: l₂) := by
  refine ⟨⟨rfl, rfl, rfl, rfl, rfl, rfl, rfl, rfl, ?_⟩,
          ⟨rfl, rfl, rfl, rfl, rfl, rfl, rfl, rfl, ?_⟩⟩
  · exact update_split_generic Food.id (fun _ => applyFoodUpdate editingF inF)
      foods editingF hmemF hnodupF
  · exact update_split_generic Recipe.id
      (fun _ => applyRecipeUpdate editingR inR) recipes editingR hmemR hnodupR

/-- Concrete instance of C4: updating the single-element fridge replaces the
milk record in place. -/
theorem update_preserves_identity_and_frame_witness :
    ∃ l₁ l₂, [sampleMilk] = l₁ ++ sampleMilk :: l₂ ∧
      updateFood [sampleMilk] sampleMilk sampleInput =
        l₁ ++ applyFoodUpdate sampleMilk sampleInput :: l₂ :=
  (update_preserves_identity_and_frame [sampleMilk] sampleMilk sampleInput
    [sampleEmptyRecipe] sampleEmptyRecipe sampleRecipeInput
    (by simp) (by simp) (by simp) (by simp)).1.2.2.2.2.2.2.2.2

/-- C5 counterexample: for identity 99, absent from `[sampleMilk]`, the
spec-side contract `updateFoodSpec` demands a NotFound failure, but the code's
`updateFood` — applied to the ghost record carrying id 99 — returns the
collection unchanged as an ordinary successful value: no NotFound condition is
reported anywhere in the code. -/
theorem updateFood_absent_not_reported :
    updateFoodSpec [sampleMilk] 99 sampleInput = UpdateOutcome.notFound ∧
    updateFood [sampleMilk] ghostFood sampleInput = [sampleMilk] := by
  decide

/-- C5 (amended): updating with an identity absent from the collection is a
silent no-op: the working set comes back unchanged and no NotFound condition
exists in the code; likewise for recipes. -/
theorem update_absent_silent_noop
    (foods : List Food) (editingF : Food) (inF : FoodInput)
    (recipes : List Recipe) (editingR : Recipe) (inR : RecipeInput)
    (hF : editingF.id ∉ foods.map Food.id)
    (hR : editingR.id ∉ recipes.map Recipe.id) :
    updateFood foods editingF inF = foods ∧
    updateRecipe recipes editingR inR = recipes := by
  constructor
  · have e : ∀ x ∈ foods,
        (if x.id = editingF.id then applyFoodUpdate editingF inF else x) =
          id x := by
      intro x hx
      rw [id]
      refine if_neg fun he => ?_
      exact hF (he ▸ List.mem_map_of_mem Food.id hx)
    rw [updateFood, List.map_congr_left e, List.map_id]
  · have e : ∀ x ∈ recipes,
        (if x.id = editingR.id then applyRecipeUpdate editingR inR else x) =
          id x := by
      intro x hx
      rw [id]
      refine if_neg fun he => ?_
      exact hR (he ▸ List.mem_map_of_mem Recipe.id hx)
    rw [updateRecipe, List.map_congr_left e, List.map_id]

/-- Concrete instance of the amended C5: updating with the absent identities
99 (foods) and 1000 (recipes) changes nothing. -/
theorem update_absent_silent_noop_witness :
    updateFood [sampleMilk] ghostFood sampleInput = [sampleMilk] ∧
    updateRecipe [sampleEmptyRecipe] clashRecipe sampleRecipeInput =
      [sampleEmptyRecipe] :=
  update_absent_silent_noop [sampleMilk] ghostFood sampleInput
    [sampleEmptyRecipe] clashRecipe sampleRecipeInput (by decide) (by decide)

/-- C6 counterexample: in the duplicate-identity state `[dupFoodA, dupFoodB]`
(both carrying id 1), `deleteFood` removes BOTH records, whereas removing only
the first matching record would leave `[dupFoodB]`. -/
theorem deleteFood_removes_all_matches :
    deleteFood [dupFoodA, dupFoodB] 1 = [] ∧
    List.eraseP (fun f => decide (f.id = 1)) [dupFoodA, dupFoodB] =
      [dupFoodB] ∧
    deleteFood [dupFoodA, dupFoodB] 1 ≠ [dupFoodB] := by
  decide

/-- Filtering out one key is first-occurrence erasure when keys are pairwise
distinct. -/
theorem filter_ne_eq_eraseP_generic {α : Type} (key : α → ℚ) (t : ℚ)
    (l : List α) (h : (l.map key).Nodup) :
    l.filter (fun x => decide (key x ≠ t)) =
      List.eraseP (fun x => decide (key x = t)) l := by
  induction l with
  | nil => rfl
  | cons a l ih =>
    simp only [List.map_cons, List.nodup_cons] at h
    by_cases ha : key a = t
    · rw [List.filter_cons_of_neg (by simp [ha]),
        List.eraseP_cons_of_pos (by simp [ha])]
      refine List.filter_eq_self.mpr fun x hx => ?_
      simp only [decide_eq_true_eq]
      intro hxt
      refine h.1 ?_
      have hmem := List.mem_map_of_mem key hx
      rw [hxt, ← ha] at hmem
      exact hmem
    · rw [List.filter_cons_of_pos (by simp [ha]),
        List.eraseP_cons_of_neg (by simp [ha]), ih h.2]

/-- C6 (amended): delete removes every record whose identity equals the target
— which is exactly the first such record whenever identities are unique in the
collection — the result is a sublist of the original (relative order
preserved), and an absent identity gives a no-op; likewise for recipes. -/
theorem delete_semantics (foods : List Food) (recipes : List Recipe)
    (fid rid : ℚ) :
    List.Sublist (deleteFood foods fid) foods ∧
    (fid ∉ foods.map Food.id → deleteFood foods fid = foods) ∧
    ((foods.map Food.id).Nodup →
      deleteFood foods fid =
        List.eraseP (fun f => decide (f.id = fid)) foods) ∧
    List.Sublist (deleteRecipe recipes rid) recipes ∧
    (rid ∉ recipes.map Recipe.id → deleteRecipe recipes rid = recipes) ∧
    ((recipes.map Recipe.id).Nodup →
      deleteRecipe recipes rid =
        List.eraseP (fun r => decide (r.id = rid)) recipes) := by
  refine ⟨List.filter_sublist _, ?_,
    fun h => filter_ne_eq_eraseP_generic Food.id fid foods h,
    List.filter_sublist _, ?_,
    fun h => filter_ne_eq_eraseP_generic Recipe.id rid recipes h⟩
  · intro hf
    refine List.filter_eq_self.mpr fun x hx => ?_
    simp only [decide_eq_true_eq]
    exact fun he => hf (he ▸ List.mem_map_of_mem Food.id hx)
  · intro hr
    refine List.filter_eq_self.mpr fun x hx => ?_
    simp only [decide_eq_true_eq]
    exact fun he => hr (he ▸ List.mem_map_of_mem Recipe.id hx)

/-- Concrete instance of the amended C6: deleting the absent identity 99 from
the one-element fridge changes nothing. -/
theorem delete_semantics_witness :
    deleteFood [sampleMilk] 99 = [sampleMilk] :=
  (delete_semantics [sampleMilk] [] 99 0).2.1 (by decide)

/-- C7 counterexample: creating a recipe at millisecond 1000 while a recipe
with identity 1000 is already in the collection yields a duplicate identity —
the generator is `Date.now()` alone and never consults existing identities. -/
theorem addRecipe_identity_collision :
    ((addRecipe [clashRecipe] sampleRecipeInput 1000 "t1").map Recipe.id) =
      [1000, 1000] ∧
    ¬ ((addRecipe [clashRecipe] sampleRecipeInput 1000 "t1").map
        Recipe.id).Nodup := by
  decide

/-- C7 (amended): the created record's identity is `nowMs + rand` for foods
and bare `nowMs` for recipes, appended with no check against the collection;
identity uniqueness is preserved precisely when the generated value happens to
differ from every identity already present. -/
theorem add_identity_conditional_freshness
    (foods : List Food) (inF : FoodInput) (nowF rand : ℚ) (isoF : String)
    (recipes : List Recipe) (inR : RecipeInput) (nowR : ℚ) (isoR : String) :
    ((addFood foods inF nowF rand isoF).map Food.id =
      foods.map Food.id ++ [nowF + rand]) ∧
    (((foods.map Food.id).Nodup ∧ nowF + rand ∉ foods.map Food.id) ↔
      ((addFood foods inF nowF rand isoF).map Food.id).Nodup) ∧
    ((addRecipe recipes inR nowR isoR).map Recipe.id =
      recipes.map Recipe.id ++ [nowR]) ∧
    (((recipes.map Recipe.id).Nodup ∧ nowR ∉ recipes.map Recipe.id) ↔
      ((addRecipe recipes inR nowR isoR).map Recipe.id).Nodup) := by
  refine ⟨by simp [addFood], ?_, by simp [addRecipe], ?_⟩
  · simp only [addFood, List.map_append, List.map_cons, List.map_nil,
      List.nodup_append, List.nodup_cons, List.not_mem_nil, not_false_iff,
      List.nodup_nil, List.disjoint_singleton, and_true, true_and]
  · simp only [addRecipe, List.map_append, List.map_cons, List.map_nil,
      List.nodup_append, List.nodup_cons, List.not_mem_nil, not_false_iff,
      List.nodup_nil, List.disjoint_singleton, and_true, true_and]

/-- Concrete instance of the amended C7: at millisecond 2000, distinct from
the existing identity 1000, the created recipe's identity is fresh. -/
theorem add_identity_conditional_freshness_witness :
    ((addRecipe [clashRecipe] sampleRecipeInput 2000 "t2").map
      Recipe.id).Nodup :=
  (add_identity_conditional_freshness [] sampleInput 0 0 "" [clashRecipe]
    sampleRecipeInput 2000 "t2").2.2.2.mp ⟨by decide, by decide⟩

/-- A state never holds more than one pending write-back timer: the
`saveTimeoutRef` slot is a single cell. -/
theorem pendingCount_le_one {α : Type} (s : SyncState α) : pendingCount s ≤ 1 := by
  unfold pendingCount
  cases s.pendingFire <;> simp

/-- Folding a nonempty burst of mutations leaves the single timer slot holding
the last mutation's data, due 500 time units after it; the last-persisted
fingerprint and the saves are untouched. -/
theorem foldl_debounce_last {α : Type} (s : SyncState α) (m : ℤ × α)
    (rest : List (ℤ × α)) :
    (m :: rest).foldl debounceStep s =
      SyncState.mk
        (some (((m :: rest).getLast (List.cons_ne_nil m rest)).1 + 500,
          ((m :: rest).getLast (List.cons_ne_nil m rest)).2))
        s.lastSave s.saves := by
  induction rest generalizing s m with
  | nil => simp [debounceStep, debouncedSave, List.getLast]
  | cons b bs ih =>
    rw [List.foldl_cons, ih (debounceStep s m) b]
    have hlast : (m :: b :: bs).getLast (List.cons_ne_nil m (b :: bs)) =
        (b :: bs).getLast (List.cons_ne_nil b bs) :=
      List.getLast_cons (List.cons_ne_nil b bs)
    rw [hlast]
    simp [debounceStep, debouncedSave]

/-- C9: for a burst of mutations all landing within the quiescence window
(each mutation clears the previous timer before it fires, leaving one terminal
timer): after every prefix of the burst at most one timer is pending; when the
surviving timer fires, exactly one write is persisted and it carries the final
state's data — and no write at all happens when the final state's fingerprint
equals the last-persisted one. -/
theorem debounce_coalesces {α : Type} (hash : α → String) (s : SyncState α)
    (m : ℤ × α) (rest : List (ℤ × α)) :
    (∀ n : ℕ, pendingCount (((m :: rest).take n).foldl debounceStep s) ≤ 1) ∧
    (runBurst hash s (m :: rest)).saves =
      (if hash ((m :: rest).getLast (List.cons_ne_nil m rest)).2 = s.lastSave
        then s.saves
        else s.saves ++
          [((m :: rest).getLast (List.cons_ne_nil m rest)).2]) ∧
    (hash ((m :: rest).getLast (List.cons_ne_nil m rest)).2 = s.lastSave →
      (runBurst hash s (m :: rest)).saves = s.saves) := by
  have hsaves : (runBurst hash s (m :: rest)).saves =
      (if hash ((m :: rest).getLast (List.cons_ne_nil m rest)).2 = s.lastSave
        then s.saves
        else s.saves ++
          [((m :: rest).getLast (List.cons_ne_nil m rest)).2]) := by
    rw [runBurst, foldl_debounce_last]
    by_cases hh :
        hash ((m :: rest).getLast (List.cons_ne_nil m rest)).2 = s.lastSave
    · simp [fireTimer, hh]
    · simp [fireTimer, hh]
  refine ⟨fun n => pendingCount_le_one _, hsaves, fun hh => ?_⟩
  rw [hsaves, if_pos hh]

/-- Concrete instance of C9: two mutations 100 time units apart collapse into
the single write "b", the final state. -/
theorem debounce_coalesces_witness :
    (runBurst (fun d => d) (SyncState.mk none "h0" [])
      [(0, "a"), (100, "b")]).saves = ["b"] := by
  have h := (debounce_coalesces (fun d => d) (SyncState.mk none "h0" [])
    (0, "a") [(100, "b")]).2.1
  simpa using h
